import Mathlib

/-!
Verification of the `mobx-light-form` form-state container (`src/index.ts`).

The TypeScript class `Form` keeps a field registry (`keys`, `_initialValues`),
a `touched` map, an `errors` map, and dynamic field properties `this[key]`
assigned by subclasses via `this.key = this.generateField(...)`.  We embed the
class shallowly: JavaScript values that flow through the library are an
inductive `JSValue`, the maps are association lists mutated with JS
object-property semantics (overwrite in place, append if absent), and the
async validation pipeline is modelled by its sequential, fully-awaited result
(rules of one field are awaited one after the other, so the resolved values
determine the stored error).
-/

/-- JavaScript runtime values relevant to the library: `undefined`, `null`,
strings, numbers, booleans, arrays and plain objects. -/
inductive JSValue where
  | undef : JSValue
  | null : JSValue
  | str : String → JSValue
  | num : Int → JSValue
  | bool : Bool → JSValue
  | arr : List JSValue → JSValue
  | obj : List (String × JSValue) → JSValue

/-- lodash.isempty (`isEmpty` in `src/index.ts`): `undefined`/`null` are empty,
strings and arrays are empty when their length is 0, objects when they have no
own enumerable keys, and every other primitive (numbers, booleans) is empty
because it has no enumerable contents. -/
def isEmptyJS : JSValue → Bool
  | JSValue.undef => true
  | JSValue.null => true
  | JSValue.str s => s.isEmpty
  | JSValue.num _ => true
  | JSValue.bool _ => true
  | JSValue.arr xs => xs.isEmpty
  | JSValue.obj fs => fs.isEmpty

/-- JavaScript nullish test, used by the `??` operator (`options.value ?? ''`
at line 186 and `requiredMessage ?? ...` at line 223). -/
def jsNullish : JSValue → Bool
  | JSValue.undef => true
  | JSValue.null => true
  | _ => false

/-- `ERROR_TYPE` enum of `src/index.ts`. -/
def KEY_NOT_EXISTS : String := "Key should exists."

/-- `ERROR_TYPE.VALUE_NOT_REQUIRED`. -/
def VALUE_NOT_REQUIRED : String := "Value should be required."

/-- `ERROR_TYPE.VALUE_NOT_VALID`. -/
def VALUE_NOT_VALID : String := "Value is not valid."

/-- A validation rule (`type Validation = RegExp | CustomFuncValidation |
CustomAsyncFuncValidation`).  A `RegExp` only ever enters the library through
`v.test(value)`, so we model it by that boolean outcome; a (possibly async)
custom function is modelled by its awaited result
`[passed, message | undefined]`. -/
inductive Validation where
  | pattern : (JSValue → Bool) → Validation
  | func : (JSValue → Bool × Option String) → Validation

/-- `FieldSource<T>` of `src/index.ts`; `requiredMessage?` is optional. -/
structure FieldSource where
  key : String
  label : String
  value : JSValue
  isRequired : Bool
  requiredMessage : Option String
  validation : List Validation

/-- The message stored when a custom function rule fails:
`validationResult[1] || ERROR_TYPE.VALUE_NOT_VALID` (line 236).  The JS `||`
replaces any falsy message, i.e. both a missing message and the empty
string. -/
def msgOrGeneric : Option String → String
  | some m => if m = "" then VALUE_NOT_VALID else m
  | none => VALUE_NOT_VALID

/-- The `for (const v of target.validation)` loop of `validateField`
(lines 228-245): each rule is awaited in order; the first failing rule writes
its message and returns; `some msg` models that early return, `none` means the
loop ran to completion. -/
def runValidationLoop (value : JSValue) : List Validation → Option String
  | [] => none
  | Validation.func fn :: rest =>
    let res := fn value
    if !res.1 then some (msgOrGeneric res.2) else runValidationLoop value rest
  | Validation.pattern test :: rest =>
    if !test value then some VALUE_NOT_VALID else runValidationLoop value rest

/-- The error computed by `validateField` (lines 217-250) for a target field:
required check first (line 222), then the rule loop guarded by
`!isEmpty(target.validation)` (line 227), finally `undefined` (line 249). -/
def validateFieldResult (target : FieldSource) : Option String :=
  if target.isRequired && isEmptyJS target.value then
    some (target.requiredMessage.getD VALUE_NOT_REQUIRED)
  else if !target.validation.isEmpty then
    runValidationLoop target.value target.validation
  else
    none

/-- Specification-side description of one rule's outcome on a value: `none`
when the rule passes, `some msg` with the stored failure message when it
fails.  Used to characterise the loop as a first-failure search. -/
def ruleOutcome (value : JSValue) : Validation → Option String
  | Validation.pattern test => if test value then none else some VALUE_NOT_VALID
  | Validation.func fn =>
    let res := fn value
    if res.1 then none else some (msgOrGeneric res.2)

/-- Setting a property on a JS object: overwrite in place if the key exists,
append it otherwise (`this._touched[key] = value` and friends).  A JS object
holds each key at most once, so replacing the first occurrence is the JS
behaviour. -/
def setAssoc {α : Type} (m : List (String × α)) (k : String) (v : α) :
    List (String × α) :=
  match m with
  | [] => [(k, v)]
  | p :: rest => if p.1 == k then (k, v) :: rest else p :: setAssoc rest k v

/-- Reading a property of a JS object (`this._errors[key]`, `this[key]`...):
`none` when the property is absent. -/
def lookupAssoc {α : Type} (m : List (String × α)) (k : String) : Option α :=
  match m with
  | [] => none
  | p :: rest => if p.1 == k then some p.2 else lookupAssoc rest k

/-- The mutable state of a `Form` instance.  `fields` holds the dynamic field
properties `this[key]` that subclasses install with
`this.key = this.generateField({key, ...})`; the other four components are the
private members `keys`, `_initialValues`, `_touched`, `_errors`. -/
structure Form where
  keys : List String
  initialValues : List (String × FieldSource)
  fields : List (String × FieldSource)
  touched : List (String × Bool)
  errors : List (String × Option String)

/-- A freshly constructed `Form` (the constructor initialises `keys = []` and
the record members to `{}`). -/
def emptyForm : Form :=
  { keys := [], initialValues := [], fields := [], touched := [], errors := [] }

/-- One iteration of `reset`'s loop (lines 141-148): restore
`this[key] = this._initialValues[key]`, set `touched[key] = false` and
`errors[key] = undefined`.  When the snapshot is unexpectedly absent the JS
code would assign `undefined`; we keep the field unchanged in that (unreachable
for registered keys) case. -/
def resetOne (f : Form) (key : String) : Form :=
  { f with
    fields := match lookupAssoc f.initialValues key with
              | some snap => setAssoc f.fields key snap
              | none => f.fields
    touched := setAssoc f.touched key false
    errors := setAssoc f.errors key none }

/-- `reset()` (lines 140-149): `this.keys.forEach(...)`. -/
def resetForm (f : Form) : Form :=
  f.keys.foldl resetOne f

/-- One iteration of `clear`'s loop (lines 130-137): restore the initial
snapshot, untouch, then store
`validateField(key, this._initialValues[key])` — the revalidation runs against
the initial snapshot passed explicitly as target. -/
def clearOne (f : Form) (key : String) : Form :=
  { f with
    fields := match lookupAssoc f.initialValues key with
              | some snap => setAssoc f.fields key snap
              | none => f.fields
    touched := setAssoc f.touched key false
    errors := match lookupAssoc f.initialValues key with
              | some snap => setAssoc f.errors key (validateFieldResult snap)
              | none => f.errors }

/-- `clear()` (lines 129-138). -/
def clearForm (f : Form) : Form :=
  f.keys.foldl clearOne f

/-- `isValid` (lines 101-103): `Object.values(this._errors).every(e => e ===
undefined)`.  Properties explicitly set to `undefined` are enumerated, so the
association list holds exactly the entries `Object.values` sees. -/
def isValid (f : Form) : Bool :=
  f.errors.all (fun p => p.2.isNone)

/-- The caller-supplied argument of `generateField` (`Partial<FieldSource<T>>
& {key: string}`).  `key` is `Option` because the test-suite deliberately
calls it without a key through a `@ts-ignore`; `value` uses `JSValue.undef`
for an absent or explicitly `undefined` value (the two are indistinguishable
after `options.value ?? ''`). -/
structure FieldOptions where
  key : Option String
  label : Option String
  value : JSValue
  isRequired : Option Bool
  requiredMessage : Option String
  validation : Option (List Validation)

/-- Whether `!options.key` holds: the key is absent or the empty string. -/
def keyMissing (opts : FieldOptions) : Bool :=
  match opts.key with
  | none => true
  | some k => k = ""

/-- `generateField(options, withoutInitialValidation?)` (lines 169-199).
Throwing `ERROR_TYPE.KEY_NOT_EXISTS` is modelled as `Except.error`; since the
throw is the first statement, the error case carries no modified state.
Otherwise: `addKey` (append unless present, lines 201-207), `touched[key] =
false`, `errors[key] = undefined`, build the merged initial value from
`FIELD_DEFAULT_VALUES`, `options`, and `value: options.value ?? ''`, store it
in `_initialValues` (overwriting any previous snapshot for the key), and
unless `withoutInitialValidation` store `validateField(key, initialValue)`. -/
def generateField (f : Form) (opts : FieldOptions)
    (withoutInitialValidation : Bool) : Except String (Form × FieldSource) :=
  match opts.key with
  | none => Except.error KEY_NOT_EXISTS
  | some k =>
    if k = "" then Except.error KEY_NOT_EXISTS
    else
      let fld : FieldSource :=
        { key := k
          label := opts.label.getD ""
          value := if jsNullish opts.value then JSValue.str "" else opts.value
          isRequired := opts.isRequired.getD false
          requiredMessage := opts.requiredMessage
          validation := opts.validation.getD [] }
      let f1 : Form :=
        { f with
          keys := if f.keys.contains k then f.keys else f.keys ++ [k]
          touched := setAssoc f.touched k false
          errors := setAssoc (setAssoc f.errors k none) k
            (if withoutInitialValidation then none else validateFieldResult fld)
          initialValues := setAssoc f.initialValues k fld }
      Except.ok (f1, fld)

/-- A required field holding a custom required message, used to exercise the
required branch of `validateField`. -/
def c1ReqField : FieldSource :=
  { key := "a", label := "", value := JSValue.str "", isRequired := true,
    requiredMessage := some "need it", validation := [] }

/-- A non-required field with one pattern rule, used to exercise the rule
branch of `validateField`. -/
def c1RuleField : FieldSource :=
  { key := "b", label := "", value := JSValue.str "v", isRequired := false,
    requiredMessage := none,
    validation := [Validation.pattern (fun w => match w with
      | JSValue.str s => s = "x"
      | _ => false)] }

/-- A required field whose value is the number 5, with no validation rules. -/
def c2NumField : FieldSource :=
  { key := "n", label := "", value := JSValue.num 5, isRequired := true,
    requiredMessage := none, validation := [] }

/-- A required field whose initial value is empty, so that clearing it
revalidates to the required error while resetting blanks the error. -/
def c4Snap : FieldSource :=
  { key := "a", label := "", value := JSValue.str "", isRequired := true,
    requiredMessage := none, validation := [] }

/-- A one-field form whose current state has been touched, filled and marked
error-free, so that reset/clear visibly restore it. -/
def c4Form : Form :=
  { keys := ["a"], initialValues := [("a", c4Snap)],
    fields := [("a", { c4Snap with value := JSValue.str "filled" })],
    touched := [("a", true)], errors := [("a", none)] }

/-- A form with one failing error entry. -/
def c6Bad : Form :=
  { keys := ["a"], initialValues := [], fields := [],
    touched := [("a", true)], errors := [("a", some "boom")] }

/-- The same errors map under different touched state. -/
def c6Bad2 : Form :=
  { keys := ["a"], initialValues := [], fields := [],
    touched := [("a", false)], errors := [("a", some "boom")] }

/-- Options with no key at all (the test-suite's `@ts-ignore` call). -/
def c8NoKey : FieldOptions :=
  { key := none, label := none, value := JSValue.str "test",
    isRequired := none, requiredMessage := none, validation := none }

/-- Options with the non-empty key `"a"`. -/
def c8Good : FieldOptions :=
  { key := some "a", label := none, value := JSValue.str "test",
    isRequired := none, requiredMessage := none, validation := none }

/-- Options passing an explicit `null` value for key `"a"`. -/
def c9Opts : FieldOptions :=
  { key := some "a", label := none, value := JSValue.null,
    isRequired := none, requiredMessage := none, validation := none }

/-- The field `generateField` builds from `c9Opts`: the `null` value was
replaced by the empty string and every other attribute defaulted. -/
def c9Field : FieldSource :=
  { key := "a", label := "", value := JSValue.str "", isRequired := false,
    requiredMessage := none, validation := [] }

/-- The form state after registering `c9Opts` on a fresh form. -/
def c9Form : Form :=
  { keys := ["a"], initialValues := [("a", c9Field)], fields := [],
    touched := [("a", false)], errors := [("a", none)] }

/-- A failing callable rule returning no message. -/
def c10Fn : JSValue → Bool × Option String := fun _ => (false, none)

/-- A required empty field carrying an empty-string `requiredMessage`. -/
def c10EmptyMsgField : FieldSource :=
  { key := "r", label := "", value := JSValue.str "", isRequired := true,
    requiredMessage := some "", validation := [] }

/-- A form whose errors map holds an empty-string error. -/
def c10ErrForm : Form :=
  { keys := [], initialValues := [], fields := [], touched := [],
    errors := [("e", some "")] }

theorem runValidationLoop_eq_findSome (value : JSValue) (rules : List Validation) :
    runValidationLoop value rules = rules.findSome? (ruleOutcome value) := by
  induction rules with
  | nil => rfl
  | cons r rest ih =>
    cases r with
    | pattern test =>
      by_cases h : test value = true <;>
        simp [runValidationLoop, ruleOutcome, List.findSome?, h, ih]
    | func fn =>
      by_cases h : (fn value).1 = true <;>
        simp [runValidationLoop, ruleOutcome, List.findSome?, h, ih]

theorem lookupAssoc_setAssoc_self {α : Type} (m : List (String × α)) (k : String)
    (v : α) : lookupAssoc (setAssoc m k v) k = some v := by
  induction m with
  | nil => simp [setAssoc, lookupAssoc]
  | cons p rest ih =>
    by_cases h : p.1 = k
    · simp [setAssoc, lookupAssoc, h]
    · simp [setAssoc, lookupAssoc, h, ih]

theorem lookupAssoc_setAssoc_ne {α : Type} (m : List (String × α)) (k k2 : String)
    (v : α) (h : k2 ≠ k) : lookupAssoc (setAssoc m k v) k2 = lookupAssoc m k2 := by
  induction m with
  | nil => simp [setAssoc, lookupAssoc, Ne.symm h]
  | cons p rest ih =>
    by_cases hp : p.1 = k
    · simp [setAssoc, lookupAssoc, hp, Ne.symm h]
    · simp [setAssoc, lookupAssoc, hp, ih]

theorem lookupAssoc_mem {α : Type} (m : List (String × α)) (k : String) (v : α)
    (h : lookupAssoc m k = some v) : (k, v) ∈ m := by
  induction m with
  | nil => simp [lookupAssoc] at h
  | cons p rest ih =>
    by_cases hp : p.1 = k
    · have hv : p.2 = v := by simpa [lookupAssoc, hp] using h
      have hpk : p = (k, v) := by
        cases p
        simp_all
      rw [hpk]
      exact List.mem_cons_self _ _
    · simp [lookupAssoc, hp] at h
      exact List.mem_cons_of_mem _ (ih h)

theorem foldl_preserve_lookup (step : Form → String → Form)
    (hstep : ∀ g a k, k ≠ a →
      lookupAssoc (step g a).fields k = lookupAssoc g.fields k ∧
      lookupAssoc (step g a).touched k = lookupAssoc g.touched k ∧
      lookupAssoc (step g a).errors k = lookupAssoc g.errors k)
    (ks : List String) (g : Form) (k : String) (hk : k ∉ ks) :
    lookupAssoc (ks.foldl step g).fields k = lookupAssoc g.fields k ∧
    lookupAssoc (ks.foldl step g).touched k = lookupAssoc g.touched k ∧
    lookupAssoc (ks.foldl step g).errors k = lookupAssoc g.errors k := by
  induction ks generalizing g with
  | nil => exact ⟨rfl, rfl, rfl⟩
  | cons a rest ih =>
    have hka : k ≠ a := fun e => hk (by rw [e]; exact List.mem_cons_self a rest)
    have hkr : k ∉ rest := fun m => hk (List.mem_cons_of_mem a m)
    obtain ⟨hsf, hst, hse⟩ := hstep g a k hka
    obtain ⟨hf, ht, he⟩ := ih (step g a) hkr
    rw [List.foldl_cons]
    exact ⟨hf.trans hsf, ht.trans hst, he.trans hse⟩

theorem resetOne_lookup_ne (g : Form) (a k : String) (hk : k ≠ a) :
    lookupAssoc (resetOne g a).fields k = lookupAssoc g.fields k ∧
    lookupAssoc (resetOne g a).touched k = lookupAssoc g.touched k ∧
    lookupAssoc (resetOne g a).errors k = lookupAssoc g.errors k := by
  refine ⟨?_, ?_, ?_⟩
  · show lookupAssoc (match lookupAssoc g.initialValues a with
      | some snap => setAssoc g.fields a snap
      | none => g.fields) k = lookupAssoc g.fields k
    cases lookupAssoc g.initialValues a with
    | none => rfl
    | some snap => exact lookupAssoc_setAssoc_ne g.fields a k snap hk
  · exact lookupAssoc_setAssoc_ne g.touched a k false hk
  · exact lookupAssoc_setAssoc_ne g.errors a k none hk

theorem clearOne_lookup_ne (g : Form) (a k : String) (hk : k ≠ a) :
    lookupAssoc (clearOne g a).fields k = lookupAssoc g.fields k ∧
    lookupAssoc (clearOne g a).touched k = lookupAssoc g.touched k ∧
    lookupAssoc (clearOne g a).errors k = lookupAssoc g.errors k := by
  refine ⟨?_, ?_, ?_⟩
  · show lookupAssoc (match lookupAssoc g.initialValues a with
      | some snap => setAssoc g.fields a snap
      | none => g.fields) k = lookupAssoc g.fields k
    cases lookupAssoc g.initialValues a with
    | none => rfl
    | some snap => exact lookupAssoc_setAssoc_ne g.fields a k snap hk
  · exact lookupAssoc_setAssoc_ne g.touched a k false hk
  · show lookupAssoc (match lookupAssoc g.initialValues a with
      | some snap => setAssoc g.errors a (validateFieldResult snap)
      | none => g.errors) k = lookupAssoc g.errors k
    cases lookupAssoc g.initialValues a with
    | none => rfl
    | some snap =>
      exact lookupAssoc_setAssoc_ne g.errors a k (validateFieldResult snap) hk

theorem foldl_resetOne_mem (ks : List String) (g : Form) (k : String)
    (snap : FieldSource) (hk : k ∈ ks)
    (hs : lookupAssoc g.initialValues k = some snap) :
    lookupAssoc (ks.foldl resetOne g).fields k = some snap ∧
    lookupAssoc (ks.foldl resetOne g).touched k = some false ∧
    lookupAssoc (ks.foldl resetOne g).errors k = some (none : Option String) := by
  induction ks generalizing g with
  | nil => cases hk
  | cons a rest ih =>
    rw [List.foldl_cons]
    by_cases hmem : k ∈ rest
    · exact ih (resetOne g a) hmem hs
    · have hka : k = a := by
        rcases List.mem_cons.mp hk with h | h
        · exact h
        · exact absurd h hmem
      subst hka
      have hstep_f : lookupAssoc (resetOne g k).fields k = some snap := by
        show lookupAssoc (match lookupAssoc g.initialValues k with
          | some snap2 => setAssoc g.fields k snap2
          | none => g.fields) k = some snap
        rw [hs]
        exact lookupAssoc_setAssoc_self g.fields k snap
      have hstep_t : lookupAssoc (resetOne g k).touched k = some false :=
        lookupAssoc_setAssoc_self g.touched k false
      have hstep_e : lookupAssoc (resetOne g k).errors k = some none :=
        lookupAssoc_setAssoc_self g.errors k none
      obtain ⟨pf, pt, pe⟩ := foldl_preserve_lookup resetOne
        (fun g2 a2 k2 hk2 => resetOne_lookup_ne g2 a2 k2 hk2)
        rest (resetOne g k) k hmem
      exact ⟨pf.trans hstep_f, pt.trans hstep_t, pe.trans hstep_e⟩

theorem foldl_clearOne_mem (ks : List String) (g : Form) (k : String)
    (snap : FieldSource) (hk : k ∈ ks)
    (hs : lookupAssoc g.initialValues k = some snap) :
    lookupAssoc (ks.foldl clearOne g).fields k = some snap ∧
    lookupAssoc (ks.foldl clearOne g).touched k = some false ∧
    lookupAssoc (ks.foldl clearOne g).errors k = some (validateFieldResult snap) := by
  induction ks generalizing g with
  | nil => cases hk
  | cons a rest ih =>
    rw [List.foldl_cons]
    by_cases hmem : k ∈ rest
    · exact ih (clearOne g a) hmem hs
    · have hka : k = a := by
        rcases List.mem_cons.mp hk with h | h
        · exact h
        · exact absurd h hmem
      subst hka
      have hstep_f : lookupAssoc (clearOne g k).fields k = some snap := by
        show lookupAssoc (match lookupAssoc g.initialValues k with
          | some snap2 => setAssoc g.fields k snap2
          | none => g.fields) k = some snap
        rw [hs]
        exact lookupAssoc_setAssoc_self g.fields k snap
      have hstep_t : lookupAssoc (clearOne g k).touched k = some false :=
        lookupAssoc_setAssoc_self g.touched k false
      have hstep_e : lookupAssoc (clearOne g k).errors k
          = some (validateFieldResult snap) := by
        show lookupAssoc (match lookupAssoc g.initialValues k with
          | some snap2 => setAssoc g.errors k (validateFieldResult snap2)
          | none => g.errors) k = some (validateFieldResult snap)
        rw [hs]
        exact lookupAssoc_setAssoc_self g.errors k (validateFieldResult snap)
      obtain ⟨pf, pt, pe⟩ := foldl_preserve_lookup clearOne
        (fun g2 a2 k2 hk2 => clearOne_lookup_ne g2 a2 k2 hk2)
        rest (clearOne g k) k hmem
      exact ⟨pf.trans hstep_f, pt.trans hstep_t, pe.trans hstep_e⟩

theorem validateFieldResult_required (t : FieldSource) (h1 : t.isRequired = true)
    (h2 : isEmptyJS t.value = true) (rules : List Validation) :
    validateFieldResult { t with validation := rules }
      = some (t.requiredMessage.getD VALUE_NOT_REQUIRED) := by
  unfold validateFieldResult
  simp [h1, h2]

theorem validateFieldResult_rules (t : FieldSource)
    (h : (t.isRequired && isEmptyJS t.value) = false) :
    validateFieldResult t = t.validation.findSome? (ruleOutcome t.value) := by
  unfold validateFieldResult
  rw [h]
  cases hl : t.validation with
  | nil => simp
  | cons r rs => simp [runValidationLoop_eq_findSome]

theorem isEmptyJS_characterisation (v : JSValue) :
    isEmptyJS v = true ↔
      (v = JSValue.undef ∨ v = JSValue.null ∨ v = JSValue.str "" ∨
       v = JSValue.arr [] ∨ v = JSValue.obj [] ∨
       (∃ n, v = JSValue.num n) ∨ (∃ b, v = JSValue.bool b)) := by
  cases v with
  | undef => simp [isEmptyJS]
  | null => simp [isEmptyJS]
  | str s => simp [isEmptyJS, String.isEmpty_iff]
  | num n => simp [isEmptyJS]
  | bool b => simp [isEmptyJS]
  | arr xs => simp [isEmptyJS, List.isEmpty_iff]
  | obj fs => simp [isEmptyJS, List.isEmpty_iff]

theorem foldl_reset_clear_agree (ks : List String) (g1 g2 : Form)
    (hf : g1.fields = g2.fields) (ht : g1.touched = g2.touched)
    (hi : g1.initialValues = g2.initialValues) :
    (ks.foldl resetOne g1).fields = (ks.foldl clearOne g2).fields ∧
    (ks.foldl resetOne g1).touched = (ks.foldl clearOne g2).touched := by
  induction ks generalizing g1 g2 with
  | nil => exact ⟨hf, ht⟩
  | cons a rest ih =>
    rw [List.foldl_cons, List.foldl_cons]
    apply ih
    · show (match lookupAssoc g1.initialValues a with
        | some snap => setAssoc g1.fields a snap
        | none => g1.fields)
        = (match lookupAssoc g2.initialValues a with
        | some snap => setAssoc g2.fields a snap
        | none => g2.fields)
      rw [hi, hf]
    · show setAssoc g1.touched a false = setAssoc g2.touched a false
      rw [ht]
    · exact hi

/-- C1: `validateField` evaluates the required check first — when `isRequired`
holds and the value is empty it stores the required message (custom if
provided, else the generic one) and stops, for any list of rules; otherwise
the stored error is the message of the first failing rule in list order
(`List.findSome?` of the per-rule outcome), and it is `undefined` exactly when
every rule passes. -/
theorem c1_validateField_order (t : FieldSource) :
    (t.isRequired = true → isEmptyJS t.value = true →
      ∀ rules : List Validation,
        validateFieldResult { t with validation := rules }
          = some (t.requiredMessage.getD VALUE_NOT_REQUIRED)) ∧
    ((t.isRequired && isEmptyJS t.value) = false →
      validateFieldResult t = t.validation.findSome? (ruleOutcome t.value) ∧
      (t.validation.findSome? (ruleOutcome t.value) = none ↔
        ∀ r ∈ t.validation, ruleOutcome t.value r = none)) := by
  constructor
  · intro h1 h2 rules
    exact validateFieldResult_required t h1 h2 rules
  · intro h
    exact ⟨validateFieldResult_rules t h, List.findSome?_eq_none_iff⟩

/-- Witness for C1 at two concrete fields: the required branch fires with the
custom message regardless of an always-failing rule, and the rule branch
reduces to the first-failure search. -/
theorem c1_witness :
    (c1ReqField.isRequired = true ∧ isEmptyJS c1ReqField.value = true ∧
      validateFieldResult
        { c1ReqField with validation := [Validation.pattern (fun _ => false)] }
        = some (c1ReqField.requiredMessage.getD VALUE_NOT_REQUIRED)) ∧
    ((c1RuleField.isRequired && isEmptyJS c1RuleField.value) = false ∧
      validateFieldResult c1RuleField
        = c1RuleField.validation.findSome? (ruleOutcome c1RuleField.value)) :=
  ⟨⟨rfl, rfl, (c1_validateField_order c1ReqField).1 rfl rfl
      [Validation.pattern (fun _ => false)]⟩,
   ⟨rfl, ((c1_validateField_order c1RuleField).2 rfl).1⟩⟩

/-- C2 counterexample: the claim says the required check fails only for
`undefined`, `null`, the empty string or an empty container — "not for
numbers or booleans".  But `lodash.isempty` holds of every number, so a
required field whose value is the number 5 (not in the claimed set, and with
no rules) still gets the required error instead of no error. -/
theorem c2_counterexample :
    isEmptyJS (JSValue.num 5) = true ∧
    validateFieldResult c2NumField = some VALUE_NOT_REQUIRED :=
  ⟨rfl, rfl⟩

/-- C2 (amended): for a field with `isRequired = true` the required check
fails exactly when `lodash.isempty` holds of the value — i.e. for `undefined`,
`null`, the empty string, empty containers, and also every number and every
boolean; when it fails the error is the custom `requiredMessage` if provided,
else the generic message, regardless of the validation rules; when it does not
fail, validation proceeds with the rules. -/
theorem c2_required_characterisation (t : FieldSource) (h : t.isRequired = true) :
    (isEmptyJS t.value = true →
      ∀ rules : List Validation,
        validateFieldResult { t with validation := rules }
          = some (t.requiredMessage.getD VALUE_NOT_REQUIRED)) ∧
    (isEmptyJS t.value = false →
      validateFieldResult t = t.validation.findSome? (ruleOutcome t.value)) ∧
    (isEmptyJS t.value = true ↔
      (t.value = JSValue.undef ∨ t.value = JSValue.null ∨ t.value = JSValue.str "" ∨
       t.value = JSValue.arr [] ∨ t.value = JSValue.obj [] ∨
       (∃ n, t.value = JSValue.num n) ∨ (∃ b, t.value = JSValue.bool b))) := by
  refine ⟨fun h2 rules => validateFieldResult_required t h h2 rules, ?_, ?_⟩
  · intro h2
    exact validateFieldResult_rules t (by rw [h, h2]; rfl)
  · exact isEmptyJS_characterisation t.value

/-- Witness for C2 (amended) at the concrete number-valued required field. -/
theorem c2_witness :
    c2NumField.isRequired = true ∧
    isEmptyJS c2NumField.value = true ∧
    validateFieldResult { c2NumField with validation := [] }
      = some (c2NumField.requiredMessage.getD VALUE_NOT_REQUIRED) :=
  ⟨rfl, rfl, (c2_required_characterisation c2NumField rfl).1 rfl []⟩

/-- C4: `reset()` and `clear()` both restore every registered field to its
initial snapshot and set its touched flag to false — indeed they produce
identical `fields` and `touched` maps — and they differ precisely in the
errors map: `reset` stores `undefined` for every registered key (no
revalidation), while `clear` stores the result of revalidating the restored
initial snapshot. -/
theorem c4_reset_clear (f : Form) (k : String) (snap : FieldSource)
    (hk : k ∈ f.keys) (hs : lookupAssoc f.initialValues k = some snap) :
    lookupAssoc (resetForm f).fields k = some snap ∧
    lookupAssoc (resetForm f).touched k = some false ∧
    lookupAssoc (resetForm f).errors k = some (none : Option String) ∧
    lookupAssoc (clearForm f).fields k = some snap ∧
    lookupAssoc (clearForm f).touched k = some false ∧
    lookupAssoc (clearForm f).errors k = some (validateFieldResult snap) ∧
    (resetForm f).fields = (clearForm f).fields ∧
    (resetForm f).touched = (clearForm f).touched := by
  obtain ⟨rf, rt, re⟩ := foldl_resetOne_mem f.keys f k snap hk hs
  obtain ⟨cf, ct, ce⟩ := foldl_clearOne_mem f.keys f k snap hk hs
  obtain ⟨af, at2⟩ := foldl_reset_clear_agree f.keys f f rfl rfl rfl
  exact ⟨rf, rt, re, cf, ct, ce, af, at2⟩

/-- Witness for C4: on the concrete form, reset blanks the error while clear
revalidates the restored empty value back to the required error. -/
theorem c4_witness :
    ("a" ∈ c4Form.keys ∧ lookupAssoc c4Form.initialValues "a" = some c4Snap) ∧
    lookupAssoc (resetForm c4Form).errors "a" = some none ∧
    lookupAssoc (clearForm c4Form).errors "a" = some (validateFieldResult c4Snap) ∧
    validateFieldResult c4Snap = some VALUE_NOT_REQUIRED :=
  ⟨⟨List.mem_cons_self "a" [], rfl⟩,
   (c4_reset_clear c4Form "a" c4Snap (List.mem_cons_self "a" []) rfl).2.2.1,
   (c4_reset_clear c4Form "a" c4Snap (List.mem_cons_self "a" []) rfl).2.2.2.2.2.1,
   rfl⟩

/-- C6: `isValid` is true exactly when every entry of the errors map is
`undefined`, and it is a pure function of the errors map alone — two forms
with the same errors map have the same `isValid`, so reading it neither
validates nor mutates anything. -/
theorem c6_isValid_reads_errors (f g : Form) :
    (isValid f = true ↔ ∀ p ∈ f.errors, p.2 = none) ∧
    (f.errors = g.errors → isValid f = isValid g) := by
  constructor
  · unfold isValid
    rw [List.all_eq_true]
    constructor
    · intro h p hp
      have := h p hp
      simpa using this
    · intro h p hp
      simpa using h p hp
  · intro h
    unfold isValid
    rw [h]

/-- Witness for C6: two forms sharing the errors map share `isValid`, and the
concrete form with a set error message is invalid. -/
theorem c6_witness :
    c6Bad.errors = c6Bad2.errors ∧
    isValid c6Bad = isValid c6Bad2 ∧
    isValid c6Bad = false :=
  ⟨rfl, (c6_isValid_reads_errors c6Bad c6Bad2).2 rfl, rfl⟩

/-- C8: `generateField` throws `ERROR_TYPE.KEY_NOT_EXISTS` ("Key should
exists.") exactly when the key option is absent or the empty string, whatever
the other options; with a non-empty key it never throws.  The guard is the
first statement of `generateField`, so the error case (modelled as
`Except.error` carrying no state) occurs before any registry state is
modified. -/
theorem c8_generateField_key_guard (f : Form) (opts : FieldOptions) (wv : Bool) :
    (keyMissing opts = true →
      generateField f opts wv = Except.error KEY_NOT_EXISTS) ∧
    (keyMissing opts = false →
      ∃ f2 fld, generateField f opts wv = Except.ok (f2, fld)) := by
  constructor
  · intro h
    unfold generateField
    cases hk : opts.key with
    | none => rfl
    | some k =>
      unfold keyMissing at h
      rw [hk] at h
      simp only [decide_eq_true_eq] at h
      simp [h]
  · intro h
    unfold generateField
    unfold keyMissing at h
    cases hk : opts.key with
    | none =>
      rw [hk] at h
      simp at h
    | some k =>
      rw [hk] at h
      simp only [decide_eq_false_iff_not] at h
      simp only [h, if_false]
      exact ⟨_, _, rfl⟩

/-- Witness for C8: the keyless options fail with the registration error and
the keyed options succeed. -/
theorem c8_witness :
    (keyMissing c8NoKey = true ∧
      generateField emptyForm c8NoKey false = Except.error KEY_NOT_EXISTS) ∧
    (keyMissing c8Good = false ∧
      ∃ f2 fld, generateField emptyForm c8Good false = Except.ok (f2, fld)) :=
  ⟨⟨rfl, (c8_generateField_key_guard emptyForm c8NoKey false).1 rfl⟩,
   ⟨rfl, (c8_generateField_key_guard emptyForm c8Good false).2 rfl⟩⟩

/-- C9: `generateField` stores `options.value ?? ''` — an absent/`undefined`
or explicitly `null` value becomes the empty string, and any other value
(including 0, false and empty containers) is stored unchanged — both in the
returned field and in the registered initial snapshot. -/
theorem c9_nullish_value_default (f : Form) (opts : FieldOptions) (wv : Bool)
    (k : String) (f2 : Form) (fld : FieldSource) (hk : opts.key = some k)
    (hres : generateField f opts wv = Except.ok (f2, fld)) :
    fld.value
      = (if jsNullish opts.value = true then JSValue.str "" else opts.value) ∧
    lookupAssoc f2.initialValues k = some fld ∧
    (jsNullish opts.value = true ↔
      (opts.value = JSValue.undef ∨ opts.value = JSValue.null)) := by
  unfold generateField at hres
  rw [hk] at hres
  by_cases hke : k = ""
  · simp [hke] at hres
  · simp only [hke, if_false, Except.ok.injEq, Prod.mk.injEq] at hres
    obtain ⟨h1, h2⟩ := hres
    subst h1
    subst h2
    refine ⟨rfl, ?_, ?_⟩
    · exact lookupAssoc_setAssoc_self f.initialValues k _
    · cases opts.value <;> simp [jsNullish]

/-- Witness for C9 at the explicit-`null` registration. -/
theorem c9_witness :
    (c9Opts.key = some "a" ∧
      generateField emptyForm c9Opts false = Except.ok (c9Form, c9Field)) ∧
    c9Field.value
      = (if jsNullish c9Opts.value = true then JSValue.str "" else c9Opts.value) ∧
    lookupAssoc c9Form.initialValues "a" = some c9Field :=
  ⟨⟨rfl, by rfl⟩,
   (c9_nullish_value_default emptyForm c9Opts false "a" c9Form c9Field rfl
     (by rfl)).1,
   (c9_nullish_value_default emptyForm c9Opts false "a" c9Form c9Field rfl
     (by rfl)).2.1⟩

/-- C10: when a callable rule fails, a falsy returned message (absent or the
empty string) is replaced by the generic "Value is not valid." message while a
non-empty message is kept; for the required check only a nullish
`requiredMessage` is replaced by the generic required message — any provided
string, the empty string included, is stored as-is, and an empty-string error
entry makes `isValid` false. -/
theorem c10_falsy_message_replacement (value : JSValue)
    (fn : JSValue → Bool × Option String) (t : FieldSource) (f : Form)
    (k : String) (hfail : (fn value).1 = false) :
    ((fn value).2 = none →
      ruleOutcome value (Validation.func fn) = some VALUE_NOT_VALID) ∧
    ((fn value).2 = some "" →
      ruleOutcome value (Validation.func fn) = some VALUE_NOT_VALID) ∧
    (∀ m, (fn value).2 = some m → m ≠ "" →
      ruleOutcome value (Validation.func fn) = some m) ∧
    (∀ m, t.isRequired = true → isEmptyJS t.value = true →
      t.requiredMessage = some m → validateFieldResult t = some m) ∧
    (t.isRequired = true → isEmptyJS t.value = true → t.requiredMessage = none →
      validateFieldResult t = some VALUE_NOT_REQUIRED) ∧
    (lookupAssoc f.errors k = some (some "") → isValid f = false) := by
  refine ⟨?_, ?_, ?_, ?_, ?_, ?_⟩
  · intro h
    unfold ruleOutcome
    simp [hfail, h, msgOrGeneric]
  · intro h
    unfold ruleOutcome
    simp [hfail, h, msgOrGeneric]
  · intro m h hm
    unfold ruleOutcome
    simp [hfail, h, msgOrGeneric, hm]
  · intro m h1 h2 h3
    unfold validateFieldResult
    simp [h1, h2, h3]
  · intro h1 h2 h3
    unfold validateFieldResult
    simp [h1, h2, h3]
  · intro hl
    have hmem := lookupAssoc_mem f.errors k (some "") hl
    unfold isValid
    cases hall : f.errors.all (fun p => p.2.isNone) with
    | false => rfl
    | true =>
      rw [List.all_eq_true] at hall
      have := hall _ hmem
      simp at this

/-- Witness for C10: the failing no-message rule produces the generic message,
the empty-string `requiredMessage` is stored as-is, and the resulting form is
invalid. -/
theorem c10_witness :
    (c10Fn JSValue.null).1 = false ∧
    ruleOutcome JSValue.null (Validation.func c10Fn) = some VALUE_NOT_VALID ∧
    validateFieldResult c10EmptyMsgField = some "" ∧
    isValid c10ErrForm = false :=
  ⟨rfl,
   (c10_falsy_message_replacement JSValue.null c10Fn c10EmptyMsgField c10ErrForm
     "e" rfl).1 rfl,
   (c10_falsy_message_replacement JSValue.null c10Fn c10EmptyMsgField c10ErrForm
     "e" rfl).2.2.2.1 "" rfl rfl rfl,
   (c10_falsy_message_replacement JSValue.null c10Fn c10EmptyMsgField c10ErrForm
     "e" rfl).2.2.2.2.2 rfl⟩
